import Mathlib

/-!
Verification of the EAN-13 checksum module of the barcode-generator
application.  The definitions below are a shallow embedding of the
TypeScript source: strings are lists of characters, the `processText`
helper of `App.tsx` (lines 156-186) is embedded as a total Lean function,
and the older application variants (`AppOld.tsx`, `AppComplexe.tsx`) are
embedded by the EAN-13 portion of their barcode-generation effects.
-/

namespace BarcodeGen

/-- JavaScript `String.prototype.trim` removes the characters with the
Unicode White_Space property plus U+FEFF from both ends; this predicate
recognises those characters. -/
def isWhitespace (c : Char) : Bool :=
  c.toNat = 9 || c.toNat = 10 || c.toNat = 11 || c.toNat = 12 || c.toNat = 13 ||
  c.toNat = 32 || c.toNat = 160 || c.toNat = 0x1680 ||
  (0x2000 ≤ c.toNat && c.toNat ≤ 0x200A) ||
  c.toNat = 0x2028 || c.toNat = 0x2029 || c.toNat = 0x202F || c.toNat = 0x205F ||
  c.toNat = 0x3000 || c.toNat = 0xFEFF

/-- The character class `[0-9]` of the regular expression
`replace(/[^0-9]/g, '')` used in the source. -/
def isDigitChar (c : Char) : Bool :=
  48 ≤ c.toNat && c.toNat ≤ 57

/-- `parseInt` applied to a single decimal-digit character. -/
def digitVal (c : Char) : Nat :=
  c.toNat - 48

/-- Left half of JavaScript `trim`. -/
def trimLeft (l : List Char) : List Char :=
  l.dropWhile isWhitespace

/-- Right half of JavaScript `trim`. -/
def trimRight (l : List Char) : List Char :=
  (l.reverse.dropWhile isWhitespace).reverse

/-- JavaScript `String.prototype.trim` on a list of characters. -/
def trim (l : List Char) : List Char :=
  trimRight (trimLeft l)

/-- The loop `for (let i = 0; i < 12; i++) sum += parseInt(digits[i]) *
(i % 2 === 0 ? 1 : 3)` of the source, written as a recursion carrying the
position `i`; it is applied to the first twelve digits. -/
def eanSum : Nat → List Nat → Nat
  | _, [] => 0
  | i, d :: ds => d * (if i % 2 = 0 then 1 else 3) + eanSum (i + 1) ds

/-- `const checkDigit = (10 - (sum % 10)) % 10` computed from the first
twelve entries of a digit sequence, as in `App.tsx` lines 163-167. -/
def computeCheckDigit (ds : List Nat) : Nat :=
  (10 - eanSum 0 (ds.take 12) % 10) % 10

/-- The `type` state of the application: `'qrcode' | 'ean13' | 'code128'`. -/
inductive CodeType where
  | qrcode
  | ean13
  | code128
deriving DecidableEq

/-- The errors `processText` can report, with the data interpolated into
the French messages of the source kept as payload; `errorMessage` below
renders the exact source strings. -/
inductive EanError where
  | emptyText
  | checksumMismatch (expected provided : Nat)
  | invalidLength (found : Nat)
deriving DecidableEq

/-- The exact message strings of `App.tsx` (lines 158, 178, 182). -/
def errorMessage : EanError → List Char
  | .emptyText => "Texte vide".toList
  | .checksumMismatch expected provided =>
      "Chiffre de contrôle invalide. Attendu: ".toList ++ (Nat.repr expected).toList ++
        ", fourni: ".toList ++ (Nat.repr provided).toList
  | .invalidLength found =>
      "EAN-13 nécessite 12 ou 13 chiffres (".toList ++ (Nat.repr found).toList ++
        " fournis)".toList

/-- The return shape `{ text: string; error?: string }` of `processText`. -/
structure ProcessResult where
  text : List Char
  error : Option EanError
deriving DecidableEq

/-- Shallow embedding of `processText` (`App.tsx` lines 156-186): trim the
input, reject empty text, and for EAN-13 strip the non-digits, auto-complete
a 12-digit sequence with its check digit (`digits + checkDigit` appends the
decimal rendering of the number), validate a 13-digit sequence against its
last digit, and reject any other digit count. -/
def processText (inputText : List Char) (codeType : CodeType) : ProcessResult :=
  let trimmedText := trim inputText
  if trimmedText = [] then ⟨[], some .emptyText⟩
  else
    match codeType with
    | .ean13 =>
      let digits := trimmedText.filter isDigitChar
      if digits.length = 12 then
        ⟨digits ++ (Nat.repr (computeCheckDigit (digits.map digitVal))).toList, none⟩
      else if digits.length = 13 then
        let calculatedCheckDigit := computeCheckDigit (digits.map digitVal)
        let providedCheckDigit := digitVal (digits.getD 12 '0')
        if calculatedCheckDigit ≠ providedCheckDigit then
          ⟨trimmedText, some (.checksumMismatch calculatedCheckDigit providedCheckDigit)⟩
        else ⟨digits, none⟩
      else ⟨trimmedText, some (.invalidLength digits.length)⟩
    | _ => ⟨trimmedText, none⟩

/-- The `useState` hooks of the `App` component that hold data (the two DOM
refs are omitted: `processText` never reads them either). -/
structure AppState where
  text : List Char
  type : CodeType
  isDark : Bool
  error : List Char
  isBatchMode : Bool
  batchText : List Char
  isGeneratingBatch : Bool

/-- `processText` as invoked inside the component, in state-passing form:
its body (`App.tsx` lines 156-186) references only its two parameters,
reads none of the `useState` values and calls none of the setters, so the
component state is returned unchanged. -/
def processTextStateful (s : AppState) (inputText : List Char) (codeType : CodeType) :
    ProcessResult × AppState :=
  (processText inputText codeType, s)

/-- Outcome of the EAN-13 branch of the barcode effect in `AppOld.tsx`
(lines 30-47): `rendered` is the string handed to the renderer (none when
nothing is drawn) and `lengthError` reports whether the message
`EAN-13 doit contenir exactement 13 chiffres` was set. -/
structure OldOutcome where
  rendered : Option (List Char)
  lengthError : Bool
deriving DecidableEq

/-- Shallow embedding of the EAN-13 handling of `AppOld.tsx` (lines 30-47):
empty trimmed text clears the output; otherwise the digits are counted on
the raw text (`text.replace(/[^0-9]/g, '')`) and unless exactly 13 are
found a length error is set; on success the raw `text` itself is rendered,
with no check-digit verification. -/
def appOldEan13 (text : List Char) : OldOutcome :=
  if trim text = [] then ⟨none, false⟩
  else if (text.filter isDigitChar).length ≠ 13 then ⟨none, true⟩
  else ⟨some text, false⟩

/-- Shallow embedding of the EAN-13 handling of the barcode effect in
`AppComplexe.tsx` (lines 38-61): the effect runs only on non-empty trimmed
text (modelled by the first branch); a 12-digit sequence is auto-completed
with its check digit, a 13-digit sequence is passed through as the stripped
digits with no check-digit verification, and any other count raises the
count-reporting length error. -/
def appComplexeEan13 (input : List Char) : ProcessResult :=
  let trimmed := trim input
  if trimmed = [] then ⟨[], none⟩
  else
    let digits := trimmed.filter isDigitChar
    if digits.length = 12 then
      ⟨digits ++ (Nat.repr (computeCheckDigit (digits.map digitVal))).toList, none⟩
    else if digits.length = 13 then ⟨digits, none⟩
    else ⟨trimmed, some (.invalidLength digits.length)⟩

/-! ### Supporting lemmas -/

lemma not_whitespace_of_digit {c : Char} (h : isDigitChar c = true) :
    isWhitespace c = false := by
  simp only [isDigitChar, Bool.and_eq_true, decide_eq_true_eq] at h
  simp only [isWhitespace, Bool.or_eq_false_iff, Bool.and_eq_false_iff,
    decide_eq_false_iff_not]
  omega

lemma not_digit_of_whitespace {c : Char} (h : isWhitespace c = true) :
    isDigitChar c = false := by
  by_cases hd : isDigitChar c = true
  · rw [not_whitespace_of_digit hd] at h
    exact absurd h (by simp)
  · simpa using hd

lemma dropWhile_ws_eq_self {l : List Char} (h : ∀ x ∈ l, isWhitespace x = false) :
    l.dropWhile isWhitespace = l := by
  cases l with
  | nil => rfl
  | cons a l =>
    rw [List.dropWhile_cons, h a (List.mem_cons_self a l)]
    simp

lemma trim_eq_self {l : List Char} (h : ∀ x ∈ l, isWhitespace x = false) :
    trim l = l := by
  unfold trim trimRight trimLeft
  rw [dropWhile_ws_eq_self h,
    dropWhile_ws_eq_self (fun x hx => h x (List.mem_reverse.mp hx)),
    List.reverse_reverse]

lemma trim_eq_nil {l : List Char} (h : ∀ x ∈ l, isWhitespace x = true) :
    trim l = [] := by
  unfold trim trimRight trimLeft
  have h1 : l.dropWhile isWhitespace = [] :=
    List.dropWhile_eq_nil_iff.mpr (by simpa using h)
  rw [h1]
  rfl

lemma filter_dropWhile_ws (l : List Char) :
    (l.dropWhile isWhitespace).filter isDigitChar = l.filter isDigitChar := by
  induction l with
  | nil => rfl
  | cons a l ih =>
    rw [List.dropWhile_cons]
    by_cases ha : isWhitespace a = true
    · rw [if_pos ha, ih, List.filter_cons, not_digit_of_whitespace ha]
      simp
    · rw [if_neg ha]

/-- Trimming first does not change the digits extracted by the strip step:
the characters removed by `trim` are whitespace, hence non-digits. -/
lemma filter_trim (l : List Char) :
    (trim l).filter isDigitChar = l.filter isDigitChar := by
  unfold trim trimRight trimLeft
  rw [List.filter_reverse, filter_dropWhile_ws, List.filter_reverse,
    List.reverse_reverse, filter_dropWhile_ws]

lemma trim_ne_nil_of_digits {l : List Char} (h : (l.filter isDigitChar).length ≠ 0) :
    trim l ≠ [] := by
  intro hnil
  apply h
  rw [← filter_trim, hnil]
  rfl

/-- The position-carrying loop sum as an indexed finite sum. -/
lemma eanSum_eq_sum (ds : List Nat) : ∀ i, eanSum i ds =
    ∑ j ∈ Finset.range ds.length, ds.getD j 0 * (if (i + j) % 2 = 0 then 1 else 3) := by
  induction ds with
  | nil => intro i; simp [eanSum]
  | cons d ds ih =>
    intro i
    rw [eanSum, ih (i + 1), List.length_cons, Finset.sum_range_succ']
    simp only [List.getD_cons_succ, List.getD_cons_zero, Nat.add_zero]
    rw [Nat.add_comm]
    congr 1
    apply Finset.sum_congr rfl
    intro j _
    have hij : i + 1 + j = i + (j + 1) := by omega
    rw [hij]

lemma computeCheckDigit_lt_ten (ds : List Nat) : computeCheckDigit ds < 10 :=
  Nat.mod_lt _ (by norm_num)

lemma computeCheckDigit_append {xs : List Nat} (ys : List Nat) (h : xs.length = 12) :
    computeCheckDigit (xs ++ ys) = computeCheckDigit xs := by
  unfold computeCheckDigit
  rw [List.take_append_eq_append_take, h, Nat.sub_self, List.take_zero,
    List.append_nil]

/-- The decimal rendering of a number below ten is a single digit character
whose value is the number itself. -/
lemma repr_digit_facts : ∀ k, k < 10 →
    (Nat.repr k).toList.map digitVal = [k] ∧
      ∀ c ∈ (Nat.repr k).toList, isDigitChar c = true := by decide

/-! ### Branch evaluations of `processText` -/

lemma processText_twelve {input : List Char}
    (h12 : ((trim input).filter isDigitChar).length = 12) :
    processText input CodeType.ean13 =
      ⟨(trim input).filter isDigitChar ++
        (Nat.repr (computeCheckDigit (((trim input).filter isDigitChar).map digitVal))).toList,
        none⟩ := by
  have hne : trim input ≠ [] := fun hnil => by simp [hnil] at h12
  simp [processText, hne, h12]

lemma processText_thirteen {input : List Char}
    (h13 : ((trim input).filter isDigitChar).length = 13) :
    processText input CodeType.ean13 =
      if computeCheckDigit (((trim input).filter isDigitChar).map digitVal) =
          digitVal (((trim input).filter isDigitChar).getD 12 '0') then
        ⟨(trim input).filter isDigitChar, none⟩
      else
        ⟨trim input, some (.checksumMismatch
          (computeCheckDigit (((trim input).filter isDigitChar).map digitVal))
          (digitVal (((trim input).filter isDigitChar).getD 12 '0')))⟩ := by
  have hne : trim input ≠ [] := fun hnil => by simp [hnil] at h13
  by_cases heq : computeCheckDigit (((trim input).filter isDigitChar).map digitVal) =
      digitVal (((trim input).filter isDigitChar).getD 12 '0')
  · simp [processText, hne, h13, heq]
  · simp [processText, hne, h13, heq]

lemma processText_other {input : List Char} (hne : trim input ≠ [])
    (h12 : ((trim input).filter isDigitChar).length ≠ 12)
    (h13 : ((trim input).filter isDigitChar).length ≠ 13) :
    processText input CodeType.ean13 =
      ⟨trim input, some (.invalidLength ((trim input).filter isDigitChar).length)⟩ := by
  simp [processText, hne, h12, h13]

/-- Evaluation of `processText` on a twelve-digit sequence followed by one
more digit character: the outcome is decided by comparing that last digit
with the check digit of the first twelve. -/
lemma validate_core (D : List Char) (c : Char) (hlen : D.length = 12)
    (hD : ∀ x ∈ D, isDigitChar x = true) (hc : isDigitChar c = true) :
    processText (D ++ [c]) CodeType.ean13 =
      if digitVal c = computeCheckDigit (D.map digitVal) then ⟨D ++ [c], none⟩
      else ⟨D ++ [c],
        some (.checksumMismatch (computeCheckDigit (D.map digitVal)) (digitVal c))⟩ := by
  have hall : ∀ x ∈ D ++ [c], isDigitChar x = true := by
    intro x hx
    rcases List.mem_append.mp hx with hx | hx
    · exact hD x hx
    · rw [List.mem_singleton.mp hx]
      exact hc
  have htrim : trim (D ++ [c]) = D ++ [c] :=
    trim_eq_self (fun x hx => not_whitespace_of_digit (hall x hx))
  have hfilter : (D ++ [c]).filter isDigitChar = D ++ [c] :=
    List.filter_eq_self.mpr (by simpa using hall)
  have h13 : ((trim (D ++ [c])).filter isDigitChar).length = 13 := by
    rw [htrim, hfilter]
    simp [hlen]
  have hcalc : computeCheckDigit (((D ++ [c]).filter isDigitChar).map digitVal) =
      computeCheckDigit (D.map digitVal) := by
    rw [hfilter, List.map_append]
    exact computeCheckDigit_append _ (by simp [hlen])
  have hget : ((D ++ [c]).filter isDigitChar).getD 12 '0' = c := by
    rw [hfilter, List.getD_append_right D [c] '0' 12 (le_of_eq hlen)]
    simp [hlen]
  have he := processText_thirteen h13
  rw [htrim, hcalc, hget] at he
  rw [he]
  by_cases heq : digitVal c = computeCheckDigit (D.map digitVal)
  · rw [if_pos heq.symm, if_pos heq, hfilter]
  · rw [if_neg (Ne.symm heq), if_neg heq]

/-! ### Claims -/

/-- Claim C1: for every sequence of exactly 12 decimal digits, the
check-digit computation inside `processText` returns
`(10 - (S mod 10)) mod 10`, where `S` is the sum of each digit multiplied
by 1 at even 0-based positions and by 3 at odd positions. -/
theorem computeCheckDigit_weighted_sum (ds : List Nat) (h : ds.length = 12) :
    computeCheckDigit ds =
      (10 - (∑ i ∈ Finset.range 12, ds.getD i 0 * (if i % 2 = 0 then 1 else 3)) % 10) % 10 := by
  unfold computeCheckDigit
  rw [← h, List.take_length, eanSum_eq_sum]
  simp

/-- Witness for C1 at the concrete 12-digit sequence 123456789012. -/
theorem computeCheckDigit_weighted_sum_witness :
    ([1, 2, 3, 4, 5, 6, 7, 8, 9, 0, 1, 2] : List Nat).length = 12 ∧
      computeCheckDigit [1, 2, 3, 4, 5, 6, 7, 8, 9, 0, 1, 2] =
        (10 - (∑ i ∈ Finset.range 12,
          ([1, 2, 3, 4, 5, 6, 7, 8, 9, 0, 1, 2] : List Nat).getD i 0 *
            (if i % 2 = 0 then 1 else 3)) % 10) % 10 :=
  ⟨by decide, computeCheckDigit_weighted_sum [1, 2, 3, 4, 5, 6, 7, 8, 9, 0, 1, 2] (by decide)⟩

/-- Claim C2: for a 12-digit sequence `D` and a digit character `c`,
processing `D ++ [c]` succeeds exactly when `c` is the computed check
digit of `D`, and on a mismatch the error carries both the computed and
the provided check digit. -/
theorem validate_thirteenth_digit (D : List Char) (c : Char) (hlen : D.length = 12)
    (hD : ∀ x ∈ D, isDigitChar x = true) (hc : isDigitChar c = true) :
    ((processText (D ++ [c]) CodeType.ean13).error = none ↔
        digitVal c = computeCheckDigit (D.map digitVal)) ∧
      (digitVal c ≠ computeCheckDigit (D.map digitVal) →
        (processText (D ++ [c]) CodeType.ean13).error =
          some (.checksumMismatch (computeCheckDigit (D.map digitVal)) (digitVal c))) := by
  rw [validate_core D c hlen hD hc]
  by_cases heq : digitVal c = computeCheckDigit (D.map digitVal)
  · rw [if_pos heq]
    simp [heq]
  · rw [if_neg heq]
    simp [heq]

/-- Witness for C2 at D = 123456789012 and provided digit 9 (the computed
check digit is 8, so validation fails and reports both). -/
theorem validate_thirteenth_digit_witness :
    ((processText ("123456789012".toList ++ ['9']) CodeType.ean13).error = none ↔
        digitVal '9' = computeCheckDigit ("123456789012".toList.map digitVal)) ∧
      (digitVal '9' ≠ computeCheckDigit ("123456789012".toList.map digitVal) →
        (processText ("123456789012".toList ++ ['9']) CodeType.ean13).error =
          some (.checksumMismatch (computeCheckDigit ("123456789012".toList.map digitVal))
            (digitVal '9'))) :=
  validate_thirteenth_digit "123456789012".toList '9' (by decide) (by decide) (by decide)

/-- Claim C3: round-trip — appending the computed check digit to any
12-digit sequence yields an input that `processText` accepts and returns
unchanged. -/
theorem normalize_roundtrip (D : List Char) (hlen : D.length = 12)
    (hD : ∀ x ∈ D, isDigitChar x = true) :
    processText (D ++ (Nat.repr (computeCheckDigit (D.map digitVal))).toList)
        CodeType.ean13 =
      ⟨D ++ (Nat.repr (computeCheckDigit (D.map digitVal))).toList, none⟩ := by
  obtain ⟨hmap, hdig⟩ :=
    repr_digit_facts (computeCheckDigit (D.map digitVal)) (computeCheckDigit_lt_ten _)
  have hlen1 : (Nat.repr (computeCheckDigit (D.map digitVal))).toList.length = 1 := by
    simpa using congrArg List.length hmap
  obtain ⟨c, hc⟩ := List.length_eq_one.mp hlen1
  have hcval : digitVal c = computeCheckDigit (D.map digitVal) := by
    have := hmap
    rw [hc] at this
    simpa using this
  have hcdig : isDigitChar c = true := hdig c (by rw [hc]; exact List.mem_singleton_self c)
  rw [hc, validate_core D c hlen hD hcdig, if_pos hcval]

/-- Witness for C3: the spec example 1234567890128 is accepted and
returned unchanged. -/
theorem normalize_roundtrip_witness :
    processText "1234567890128".toList CodeType.ean13 =
      ⟨"1234567890128".toList, none⟩ := by
  have h := normalize_roundtrip "123456789012".toList (by decide) (by decide)
  have e : "123456789012".toList ++
      (Nat.repr (computeCheckDigit ("123456789012".toList.map digitVal))).toList =
      "1234567890128".toList := by decide
  rw [e] at h
  exact h

/-- Claim C4: `processText` strips all non-digit characters from the raw
input, and whenever exactly 12 digits remain it succeeds and returns those
digits with the computed check digit appended. -/
theorem autocomplete_twelve (input : List Char)
    (h12 : (input.filter isDigitChar).length = 12) :
    processText input CodeType.ean13 =
      ⟨input.filter isDigitChar ++
        (Nat.repr (computeCheckDigit ((input.filter isDigitChar).map digitVal))).toList,
        none⟩ := by
  have hft := filter_trim input
  have htl : ((trim input).filter isDigitChar).length = 12 := by rw [hft]; exact h12
  rw [processText_twelve htl, hft]

/-- Witness for C4: the spec example 123456789012 auto-completes to
1234567890128. -/
theorem autocomplete_twelve_witness :
    processText "123456789012".toList CodeType.ean13 =
      ⟨"1234567890128".toList, none⟩ := by
  have h := autocomplete_twelve "123456789012".toList (by decide)
  have e : "123456789012".toList.filter isDigitChar ++
      (Nat.repr (computeCheckDigit
        (("123456789012".toList.filter isDigitChar).map digitVal))).toList =
      "1234567890128".toList := by decide
  rw [e] at h
  exact h

/-- Counterexample for C5 as stated: the empty raw input has a digit count
of 0, which is neither 12 nor 13, yet `processText` fails with the
empty-text error rather than with a length error reporting the count. -/
theorem length_error_counterexample :
    (([] : List Char).filter isDigitChar).length = 0 ∧
      processText [] CodeType.ean13 = ⟨[], some .emptyText⟩ ∧
      processText [] CodeType.ean13 ≠ ⟨[], some (.invalidLength 0)⟩ := by decide

/-- Claim C5 (amended): for every raw input whose trimmed form is
non-empty and whose digit count after stripping non-digits is neither 12
nor 13, `processText` fails with the length error reporting the number of
digits found; empty or whitespace-only input instead fails with the
empty-text error. -/
theorem length_error (input : List Char) (hne : trim input ≠ [])
    (h12 : (input.filter isDigitChar).length ≠ 12)
    (h13 : (input.filter isDigitChar).length ≠ 13) :
    processText input CodeType.ean13 =
      ⟨trim input, some (.invalidLength (input.filter isDigitChar).length)⟩ := by
  have hft := filter_trim input
  rw [← hft] at h12 h13 ⊢
  exact processText_other hne h12 h13

/-- Witness for C5: the spec example 12345 fails with the length error
reporting 5 digits found. -/
theorem length_error_witness :
    processText "12345".toList CodeType.ean13 =
      ⟨"12345".toList, some (.invalidLength 5)⟩ := by
  have h := length_error "12345".toList (by decide) (by decide) (by decide)
  have e1 : trim "12345".toList = "12345".toList := by decide
  have e2 : ("12345".toList.filter isDigitChar).length = 5 := by decide
  rw [e1, e2] at h
  exact h

/-- Claim C6: for every 12-digit sequence, the computed check digit is a
single decimal digit, i.e. at most 9. -/
theorem computeCheckDigit_le_nine (ds : List Nat) (h : ds.length = 12) :
    computeCheckDigit ds ≤ 9 := by
  have hlt : computeCheckDigit ds < 10 := computeCheckDigit_lt_ten ds
  omega

/-- Witness for C6 at the concrete 12-digit sequence 123456789012. -/
theorem computeCheckDigit_le_nine_witness :
    computeCheckDigit [1, 2, 3, 4, 5, 6, 7, 8, 9, 0, 1, 2] ≤ 9 :=
  computeCheckDigit_le_nine [1, 2, 3, 4, 5, 6, 7, 8, 9, 0, 1, 2] (by decide)

/-- Claim C7: `processText` is a deterministic pure function of its raw
input and code type: in state-passing form its result is independent of
the component state and the state is returned unchanged. -/
theorem processText_deterministic_pure (s₁ s₂ : AppState) (inputText : List Char)
    (codeType : CodeType) :
    (processTextStateful s₁ inputText codeType).1 =
        (processTextStateful s₂ inputText codeType).1 ∧
      (processTextStateful s₁ inputText codeType).2 = s₁ :=
  ⟨rfl, rfl⟩

/-- Counterexample for C8 as stated: on the input 123456789012, which
strips to 12 digits, the earliest variant (`AppOld.tsx`) sets its length
error and renders nothing, while the later variant (`App.tsx`)
auto-completes the check digit and succeeds — so the two variants do not
agree on inputs that strip to 12 digits. -/
theorem variants_twelve_counterexample :
    ("123456789012".toList.filter isDigitChar).length = 12 ∧
      appOldEan13 "123456789012".toList = ⟨none, true⟩ ∧
      processText "123456789012".toList CodeType.ean13 =
        ⟨"1234567890128".toList, none⟩ := by decide

/-- Claim C8 (amended): the earliest variant (`AppOld.tsx`) accepts every
input stripping to 13 digits without verifying the check digit, passing
the raw input through unchanged, while the later variant (`App.tsx`)
accepts a 13-digit sequence exactly when its last digit is the check digit
computed from the first 12; but on inputs stripping to 12 digits the two
disagree — the earliest rejects them with its length error while the later
auto-completes — and it is the intermediate variant (`AppComplexe.tsx`)
that agrees with the later variant on such inputs. -/
theorem variants_comparison :
    (∀ input : List Char, trim input ≠ [] →
        (input.filter isDigitChar).length = 13 →
        appOldEan13 input = ⟨some input, false⟩) ∧
      (∀ (D : List Char) (c : Char), D.length = 12 →
        (∀ x ∈ D, isDigitChar x = true) → isDigitChar c = true →
        ((processText (D ++ [c]) CodeType.ean13).error = none ↔
          digitVal c = computeCheckDigit (D.map digitVal))) ∧
      (∀ input : List Char, (input.filter isDigitChar).length = 12 →
        appOldEan13 input = ⟨none, true⟩ ∧
          appComplexeEan13 input = processText input CodeType.ean13) := by
  refine ⟨?_, ?_, ?_⟩
  · intro input hne h13
    simp [appOldEan13, hne, h13]
  · intro D c hlen hD hc
    rw [validate_core D c hlen hD hc]
    by_cases heq : digitVal c = computeCheckDigit (D.map digitVal)
    · rw [if_pos heq]
      simp [heq]
    · rw [if_neg heq]
      simp [heq]
  · intro input h12
    have hne : trim input ≠ [] := trim_ne_nil_of_digits (by omega)
    have hft := filter_trim input
    have htl : ((trim input).filter isDigitChar).length = 12 := by rw [hft]; exact h12
    constructor
    · simp [appOldEan13, hne, h12]
    · rw [processText_twelve htl]
      simp [appComplexeEan13, hne, htl]

/-- Witness for C8: the earliest variant accepts 1234567890129 (whose
check digit is wrong) unchanged; the later variant accepts 123456789012
with digit 9 appended exactly when 9 is its check digit; and on
123456789012 the earliest variant errors while the intermediate variant
agrees with the later one. -/
theorem variants_comparison_witness :
    appOldEan13 "1234567890129".toList = ⟨some "1234567890129".toList, false⟩ ∧
      ((processText ("123456789012".toList ++ ['9']) CodeType.ean13).error = none ↔
        digitVal '9' = computeCheckDigit ("123456789012".toList.map digitVal)) ∧
      appOldEan13 "123456789012".toList = ⟨none, true⟩ ∧
      appComplexeEan13 "123456789012".toList =
        processText "123456789012".toList CodeType.ean13 :=
  ⟨variants_comparison.1 "1234567890129".toList (by decide) (by decide),
    variants_comparison.2.1 "123456789012".toList '9' (by decide) (by decide) (by decide),
    (variants_comparison.2.2 "123456789012".toList (by decide)).1,
    (variants_comparison.2.2 "123456789012".toList (by decide)).2⟩

/-- Claim C9: input that is empty or consists only of whitespace fails
with the empty-text error and an empty text, for every code type, before
any digit stripping or length check — it never yields a length error. -/
theorem empty_input_error (input : List Char) (codeType : CodeType)
    (h : ∀ x ∈ input, isWhitespace x = true) :
    processText input codeType = ⟨[], some .emptyText⟩ := by
  have ht : trim input = [] := trim_eq_nil h
  simp [processText, ht]

/-- Witness for C9 at the whitespace-only input of two spaces. -/
theorem empty_input_error_witness :
    processText [' ', ' '] CodeType.ean13 = ⟨[], some .emptyText⟩ :=
  empty_input_error [' ', ' '] CodeType.ean13 (by decide)

/-- Claim C10: whenever `processText` reports an error for an EAN-13
input, the returned text is the trimmed raw input, unchanged. -/
theorem error_returns_trimmed_input (input : List Char)
    (h : (processText input CodeType.ean13).error.isSome = true) :
    (processText input CodeType.ean13).text = trim input := by
  by_cases hne : trim input = []
  · simp [processText, hne]
  · by_cases h12 : ((trim input).filter isDigitChar).length = 12
    · rw [processText_twelve h12] at h
      simp at h
    · by_cases h13 : ((trim input).filter isDigitChar).length = 13
      · have he := processText_thirteen h13
        by_cases heq : computeCheckDigit (((trim input).filter isDigitChar).map digitVal) =
            digitVal (((trim input).filter isDigitChar).getD 12 '0')
        · rw [he, if_pos heq] at h
          simp at h
        · rw [he, if_neg heq]
      · rw [processText_other hne h12 h13]

/-- Witness for C10 at the checksum-mismatch input 1234567890129. -/
theorem error_returns_trimmed_input_witness :
    (processText "1234567890129".toList CodeType.ean13).text =
      trim "1234567890129".toList :=
  error_returns_trimmed_input "1234567890129".toList (by decide)

end BarcodeGen
